import Mathlib

/-!
Verification of the tutorial configuration and deployment layer of the
napistu repository (src/tutorials/tutorial_utils.py).

The Python module is shallowly embedded: YAML values become an inductive
type, the filesystem becomes explicit state (a table of file contents and a
list of existing directories), pydantic validation becomes executable
validator functions that collect field-level error messages, and the
deploy shell-out becomes a value recording the command line that would be
printed and executed.
-/

namespace Napistu

/-- A YAML value as produced by yaml.safe_load, restricted to the scalar and
mapping shapes that appear in napistu tutorial configuration files. Mappings
are association lists in document order. -/
inductive Yaml where
  | str (s : String)
  | bool (b : Bool)
  | null
  | map (entries : List (String × Yaml))

/-- Content of a file on disk, at the level of detail the configuration
loader observes: either YAML that parses to a value, or malformed YAML on
which yaml.safe_load raises YAMLError. -/
inductive FileContent where
  | yaml (y : Yaml)
  | malformed

deriving instance DecidableEq for Except

/-- Lookup in an association list with string keys, modelling Python dict
indexing and the membership test on dict keys (first binding wins; parsed YAML maps
and Python dicts have unique keys). -/
def lookupKey {α : Type} : List (String × α) → String → Option α
  | [], _ => none
  | (k, v) :: rest, key => if k = key then some v else lookupKey rest key

/-- Computable starts-with test on strings, working on the character list so
that concrete instances reduce inside the kernel. -/
def strStartsWith (s p : String) : Bool :=
  p.data.isPrefixOf s.data

/-- Computable ends-with test on strings, working on the character list so
that concrete instances reduce inside the kernel. -/
def strEndsWith (s p : String) : Bool :=
  p.data.reverse.isPrefixOf s.data.reverse

/-- Embedding of os.path.join for the two-argument POSIX case used by the
source: an absolute second component replaces the first, otherwise the
components are joined with a single slash separator. -/
def joinPath (a b : String) : String :=
  if strStartsWith b "/" then b
  else if a = "" || strEndsWith a "/" then a ++ b
  else a ++ "/" ++ b

/-- Embedding of posixpath.dirname: everything before the final slash, with
trailing slashes stripped unless the head is all slashes. -/
def dirname (p : String) : String :=
  let rcs := p.data.reverse
  let headRev := rcs.dropWhile (fun c => c ≠ '/')
  if headRev.isEmpty then ""
  else if headRev.all (fun c => c = '/') then ⟨headRev.reverse⟩
  else ⟨(headRev.dropWhile (fun c => c = '/')).reverse⟩

/-- The chain of a path and its ancestor directories, driven by fuel so the
recursion is structural; pathlib.Path(p).mkdir(parents=True, exist_ok=True)
ensures every directory in this chain exists. -/
def ancestorDirs : Nat → String → List String
  | 0, _ => []
  | Nat.succ n, p =>
      if p = "" then []
      else
        let parent := dirname p
        if parent = p then [p]
        else p :: ancestorDirs n parent

/-- Effect of pathlib.Path(d).mkdir(parents=True, exist_ok=True) on the set
of existing directories. -/
def mkdirParents (dirs : List String) (d : String) : List String :=
  ancestorDirs (d.length + 1) d ++ dirs

/-- Embedding of os.path.expanduser for the forms that occur in configs: a
leading tilde component is replaced by the home directory, anything else is
returned unchanged (the ~user form is not modelled). -/
def expanduser (home p : String) : String :=
  if p = "~" then home
  else if strStartsWith p "~/" then home ++ ⟨p.data.drop 1⟩
  else p

/-- Embedding of re.sub applied with pattern a single space and
replacement an underscore, as used to normalize the species name. -/
def spacesToUnderscores (s : String) : String :=
  ⟨s.data.map fun c => if c = ' ' then '_' else c⟩

/-- Embedding of Python str.join: concatenate the elements separated by
sep, empty string for the empty list. -/
def joinRest (sep : String) : List String → String
  | [] => ""
  | a :: as => sep ++ a ++ joinRest sep as

/-- Embedding of Python sep.join(xs). -/
def strJoin (sep : String) : List String → String
  | [] => ""
  | a :: as => a ++ joinRest sep as

/-- Validated form of the global_vars section, mirroring the pydantic model
with fields data_dir, species and overwrite. -/
structure GlobalVars where
  data_dir : String
  species : String
  overwrite : Bool
deriving DecidableEq, Repr

/-- Validated form of one workflow entry, mirroring the pydantic model with
fields name, title, species_specific, connect_id and artifacts. Under
pydantic v2 (the source calls model_dump), fields annotated Optional with no
default are required but accept null, so connect_id and artifacts are
Option-valued yet their keys must be present in the YAML. -/
structure WorkflowSettings where
  name : String
  title : String
  species_specific : Bool
  connect_id : Option String
  artifacts : Option (List (String × String))
deriving DecidableEq, Repr

/-- Validated form of the whole configuration, mirroring the top-level
pydantic model with fields global_vars and workflows. -/
structure ConfigDict where
  global_vars : GlobalVars
  workflows : List (String × WorkflowSettings)
deriving DecidableEq, Repr

/-- Combine two validation results, concatenating the field-level error
messages the way pydantic reports every failing field of a model. -/
def collectErrors {α β : Type} :
    Except (List String) α → Except (List String) β → Except (List String) (α × β)
  | .ok a, .ok b => .ok (a, b)
  | .error e, .ok _ => .error e
  | .ok _, .error e => .error e
  | .error e1, .error e2 => .error (e1 ++ e2)

/-- Validation of a required field annotated str. -/
def requireStr (loc : String) (v : Option Yaml) : Except (List String) String :=
  match v with
  | none => .error [loc ++ ": Field required"]
  | some (.str s) => .ok s
  | some _ => .error [loc ++ ": Input should be a valid string"]

/-- Validation of a required field annotated bool. -/
def requireBool (loc : String) (v : Option Yaml) : Except (List String) Bool :=
  match v with
  | none => .error [loc ++ ": Field required"]
  | some (.bool b) => .ok b
  | some _ => .error [loc ++ ": Input should be a valid boolean"]

/-- Validation of a field annotated Optional str with no default: the key is
required but its value may be null. -/
def requireOptStr (loc : String) (v : Option Yaml) : Except (List String) (Option String) :=
  match v with
  | none => .error [loc ++ ": Field required"]
  | some .null => .ok none
  | some (.str s) => .ok (some s)
  | some _ => .error [loc ++ ": Input should be a valid string"]

/-- Validation of the entries of a dict annotated with str values. -/
def strEntries (loc : String) :
    List (String × Yaml) → Except (List String) (List (String × String))
  | [] => .ok []
  | (k, v) :: rest =>
      let head : Except (List String) (String × String) :=
        match v with
        | .str s => .ok (k, s)
        | _ => .error [loc ++ "." ++ k ++ ": Input should be a valid string"]
      (collectErrors head (strEntries loc rest)).map fun x => x.1 :: x.2

/-- Validation of a field annotated Optional dict of str to str with no
default: the key is required but its value may be null. -/
def requireOptStrMap (loc : String) (v : Option Yaml) :
    Except (List String) (Option (List (String × String))) :=
  match v with
  | none => .error [loc ++ ": Field required"]
  | some .null => .ok none
  | some (.map es) => (strEntries loc es).map some
  | some _ => .error [loc ++ ": Input should be a valid dictionary"]

/-- Embedding of the pydantic model for the global_vars section. -/
def napistuConfigGlobalValidator (loc : String) (y : Yaml) : Except (List String) GlobalVars :=
  match y with
  | .map es =>
      let d := requireStr (loc ++ ".data_dir") (lookupKey es "data_dir")
      let s := requireStr (loc ++ ".species") (lookupKey es "species")
      let o := requireBool (loc ++ ".overwrite") (lookupKey es "overwrite")
      (collectErrors d (collectErrors s o)).map fun x =>
        { data_dir := x.1, species := x.2.1, overwrite := x.2.2 }
  | _ => .error [loc ++ ": Input should be a valid dictionary"]

/-- Embedding of the pydantic model for one workflow entry. -/
def napistuConfigWorkflowValidator (loc : String) (y : Yaml) :
    Except (List String) WorkflowSettings :=
  match y with
  | .map es =>
      let n := requireStr (loc ++ ".name") (lookupKey es "name")
      let t := requireStr (loc ++ ".title") (lookupKey es "title")
      let sp := requireBool (loc ++ ".species_specific") (lookupKey es "species_specific")
      let ci := requireOptStr (loc ++ ".connect_id") (lookupKey es "connect_id")
      let ar := requireOptStrMap (loc ++ ".artifacts") (lookupKey es "artifacts")
      (collectErrors n (collectErrors t (collectErrors sp (collectErrors ci ar)))).map fun x =>
        { name := x.1, title := x.2.1, species_specific := x.2.2.1,
          connect_id := x.2.2.2.1, artifacts := x.2.2.2.2 }
  | _ => .error [loc ++ ": Input should be a valid dictionary"]

/-- Validation of every entry of the workflows dict. -/
def workflowEntries (loc : String) :
    List (String × Yaml) → Except (List String) (List (String × WorkflowSettings))
  | [] => .ok []
  | (k, v) :: rest =>
      (collectErrors (napistuConfigWorkflowValidator (loc ++ "." ++ k) v)
        (workflowEntries loc rest)).map fun x => (k, x.1) :: x.2

/-- Embedding of the top-level pydantic model applied to the keyword
arguments unpacked from the parsed YAML mapping; extra keys are ignored as
in the default pydantic configuration. -/
def napistuConfigValidator (kwargs : List (String × Yaml)) : Except (List String) ConfigDict :=
  let g : Except (List String) GlobalVars :=
    match lookupKey kwargs "global_vars" with
    | none => .error ["global_vars: Field required"]
    | some y => napistuConfigGlobalValidator "global_vars" y
  let w : Except (List String) (List (String × WorkflowSettings)) :=
    match lookupKey kwargs "workflows" with
    | none => .error ["workflows: Field required"]
    | some (.map es) => workflowEntries "workflows" es
    | some _ => .error ["workflows: Input should be a valid dictionary"]
  (collectErrors g w).map fun x => { global_vars := x.1, workflows := x.2 }

/-- Boolean success test for a validation result. -/
def exceptIsOk {ε α : Type} : Except ε α → Bool
  | .ok _ => true
  | .error _ => false

/-- Errors raised while constructing a NapistuConfig, named after the error
taxonomy of the design document. notFoundError is the Python
FileNotFoundError from _read_config; parseError would be a propagated
yaml.YAMLError, the error the design document expects for malformed YAML
(the constructor never actually produces it); validationError is the
pydantic ValidationError
with its field-level messages; unknownWorkflowError is the ValueError
raised by _format_workflow_artifacts, carrying the requested workflow and
the valid workflow names; typeError is the Python TypeError from unpacking a
non-mapping YAML document with two stars. -/
inductive InitError where
  | notFoundError (path : String)
  | parseError
  | validationError (errors : List String)
  | unknownWorkflowError (workflow : String) (validNames : List String)
  | typeError
deriving DecidableEq, Repr

/-- The message of the ValueError raised by _format_workflow_artifacts for
an unknown workflow, built exactly as in the source. -/
def unknownWorkflowMessage (workflow : String) (validNames : List String) : String :=
  "The provided workflow: " ++ workflow ++
    " is not defined as a workflow in the config. " ++
    "The named workflows are: " ++ strJoin ", " validNames

/-- Embedding of NapistuConfig._read_config: raises FileNotFoundError when
no file exists at the path; otherwise parses the YAML, and on a YAMLError
the exception is caught and logged, leaving the initially assigned empty
dict as the returned config. -/
def readConfig (files : List (String × FileContent)) (config_path : String) :
    Except InitError Yaml :=
  match lookupKey files config_path with
  | none => .error (.notFoundError config_path)
  | some .malformed => .ok (.map [])
  | some (.yaml y) => .ok y

/-- Embedding of NapistuConfig._format_workflow_artifacts, as a function of
the fields of self that the method reads. -/
def formatWorkflowArtifacts (config_dict : ConfigDict) (data_dir species_data_dir : String)
    (workflow : String) : Except InitError (Option (List (String × String))) :=
  match lookupKey config_dict.workflows workflow with
  | none => .error (.unknownWorkflowError workflow (config_dict.workflows.map Prod.fst))
  | some workflow_config =>
      let workflow_data_dir :=
        if workflow_config.species_specific then species_data_dir else data_dir
      match workflow_config.artifacts with
      | none => .ok none
      | some arts => .ok (some (arts.map fun kv => (kv.1, joinPath workflow_data_dir kv.2)))

/-- Embedding of NapistuConfig._create_artifact_dir as a step on the state
consisting of the existing directories and the log of directories the
constructor has created so far: when the parent directory of the artifact is
missing it is created with parents. -/
def createArtifactDir (st : List String × List String) (path : String) :
    List String × List String :=
  let parentdir := dirname path
  if parentdir ∈ st.1 then st
  else (mkdirParents st.1 parentdir, st.2 ++ [parentdir])

/-- Resolution of the artifacts of each related workflow in order, stopping
at the first unknown workflow as the Python dict comprehension does. -/
def relatedArtifactsList (config_dict : ConfigDict) (data_dir species_data_dir : String) :
    List String → Except InitError (List (String × Option (List (String × String))))
  | [] => .ok []
  | x :: xs =>
      match formatWorkflowArtifacts config_dict data_dir species_data_dir x with
      | .error e => .error e
      | .ok a =>
          match relatedArtifactsList config_dict data_dir species_data_dir xs with
          | .error e => .error e
          | .ok rest => .ok ((x, a) :: rest)

/-- The validated state of a constructed NapistuConfig object, with the
attribute names of the Python class. -/
structure NapistuConfig where
  workflow : String
  config_dict : ConfigDict
  species : String
  overwrite : Bool
  data_dir : String
  species_data_dir : String
  artifacts : Option (List (String × String))
  related : Option (List (String × Option (List (String × String))))
deriving DecidableEq, Repr

/-- Embedding of NapistuConfig.__init__. Inputs beyond the Python
arguments: home is the home directory consulted by os.path.expanduser,
files maps paths to file contents, and dirs lists the directories existing
on disk. The result carries the constructed object, the directories
existing afterwards, and the list of parent directories the constructor
passed to mkdir, in order. -/
def napistuConfigInit (home : String) (files : List (String × FileContent))
    (dirs : List String) (config_path workflow : String)
    (related_workflows : Option (List String)) :
    Except InitError (NapistuConfig × List String × List String) :=
  match readConfig files config_path with
  | .error e => .error e
  | .ok raw =>
    match raw with
    | .map kwargs =>
      match napistuConfigValidator kwargs with
      | .error errs => .error (.validationError errs)
      | .ok config_validated =>
        let species := config_validated.global_vars.species
        let overwrite := config_validated.global_vars.overwrite
        let data_dir := expanduser home config_validated.global_vars.data_dir
        let species_data_dir := joinPath data_dir (spacesToUnderscores species)
        match formatWorkflowArtifacts config_validated data_dir species_data_dir workflow with
        | .error e => .error e
        | .ok artifacts =>
          let st :=
            match artifacts with
            | none => (dirs, [])
            | some arts =>
                arts.foldl (fun s (kv : String × String) => createArtifactDir s kv.2) (dirs, [])
          match related_workflows with
          | none =>
              .ok ({ workflow := workflow, config_dict := config_validated,
                     species := species, overwrite := overwrite, data_dir := data_dir,
                     species_data_dir := species_data_dir, artifacts := artifacts,
                     related := none }, st.1, st.2)
          | some names =>
              match relatedArtifactsList config_validated data_dir species_data_dir names with
              | .error e => .error e
              | .ok rel =>
                  .ok ({ workflow := workflow, config_dict := config_validated,
                         species := species, overwrite := overwrite, data_dir := data_dir,
                         species_data_dir := species_data_dir, artifacts := artifacts,
                         related := some rel }, st.1, st.2)
    | _ => .error .typeError

/-- Settings of one Connect server as validated by the pydantic model with
fields url and pat_secret_name. -/
structure ConnectServer where
  url : String
  pat_secret_name : String
deriving DecidableEq, Repr

/-- Errors raised on the deploy path, named after the error taxonomy of the
design document: unknownServerError is the ValueError raised by
read_connect_settings for a server name absent from the settings, and
missingCredentialError is the ValueError raised by
read_environmental_variable for an unset environment variable. -/
inductive DeployError where
  | unknownServerError (server : String) (validNames : List String)
  | missingCredentialError (envvar : String)
deriving DecidableEq, Repr

/-- Embedding of read_environmental_variable over an explicit environment. -/
def readEnvironmentalVariable (env : List (String × String)) (envvar : String) :
    Except DeployError String :=
  match lookupKey env envvar with
  | none => .error (.missingCredentialError envvar)
  | some v => .ok v

/-- The settings dict returned by read_connect_settings after the server
PAT has been added from the environment. -/
structure ConnectSettings where
  url : String
  pat_secret_name : String
  connect_pat : String
deriving DecidableEq, Repr

/-- Embedding of read_connect_settings: the provided settings are already
well-typed (the pydantic _ConnectConfigValidator step cannot fail on them),
then the selected server is looked up and its PAT read from the
environment. -/
def readConnectSettings (env : List (String × String)) (server_name : String)
    (connect_servers_settings : List (String × ConnectServer)) :
    Except DeployError ConnectSettings :=
  match lookupKey connect_servers_settings server_name with
  | none =>
      .error (.unknownServerError server_name (connect_servers_settings.map Prod.fst))
  | some s =>
      match readEnvironmentalVariable env s.pat_secret_name with
      | .error e => .error e
      | .ok pat => .ok { url := s.url, pat_secret_name := s.pat_secret_name,
                         connect_pat := pat }

/-- Wrapping of a command-line argument in single quotes, as the f-strings
in deploy_notebook_connect do. -/
def squote (s : String) : String := "\x27" ++ s ++ "\x27"

/-- The observable effects of a deploy_notebook_connect call that reaches
the publish step: the argument list it builds, the line written to standard
output by print, and the command string passed to subprocess.call. -/
structure DeployEffects where
  arglist : List String
  printedLine : String
  shellCommand : String
deriving DecidableEq, Repr

/-- Embedding of deploy_notebook_connect. The function fails before
producing any effect when the server or its credential cannot be resolved;
otherwise it returns the effects it performs. -/
def deployNotebookConnect (env : List (String × String))
    (notebook_file notebook_title server_name : String)
    (connect_servers_settings : List (String × ConnectServer))
    (asset_type : String) (connect_id : Option String) (venv_path : Option String) :
    Except DeployError DeployEffects :=
  match readConnectSettings env server_name connect_servers_settings with
  | .error e => .error e
  | .ok connect_settings =>
      let arglist := ["rsconnect", "deploy", asset_type, "--title", squote notebook_title,
                      "--server", squote connect_settings.url,
                      "--api-key", squote connect_settings.connect_pat]
      let arglist :=
        match connect_id with
        | none => arglist ++ ["--new", notebook_file]
        | some cid => arglist ++ ["--app-id", cid, notebook_file]
      let arglist :=
        match venv_path with
        | none => arglist
        | some venv => ["source", venv ++ "/bin/activate", "&&"] ++ arglist
      let cmd := strJoin " " arglist
      .ok { arglist := arglist, printedLine := "Running command: " ++ cmd,
            shellCommand := cmd }

/-- Test for a YAML value acceptable for a field annotated str. -/
def yamlIsStr : Yaml → Bool
  | .str _ => true
  | _ => false

/-- Test for a YAML value acceptable for a field annotated bool. -/
def yamlIsBool : Yaml → Bool
  | .bool _ => true
  | _ => false

/-- Test for a YAML value acceptable for a field annotated Optional str. -/
def yamlIsOptStr : Yaml → Bool
  | .null => true
  | .str _ => true
  | _ => false

/-- Test for a YAML value acceptable for a field annotated Optional dict of
str to str. -/
def yamlIsOptStrMap : Yaml → Bool
  | .null => true
  | .map es => es.all fun e => yamlIsStr e.2
  | _ => false

/-- Test that a mapping has a key whose value satisfies the given shape. -/
def hasField (es : List (String × Yaml)) (key : String) (p : Yaml → Bool) : Bool :=
  match lookupKey es key with
  | none => false
  | some y => p y

/-- Specification-side well-formedness of a global_vars section, written
from the schema in the design document: data_dir and species are strings
and overwrite is a boolean. -/
def wellFormedGlobalVars (y : Yaml) : Bool :=
  match y with
  | .map es =>
      hasField es "data_dir" yamlIsStr && hasField es "species" yamlIsStr &&
        hasField es "overwrite" yamlIsBool
  | _ => false

/-- Specification-side well-formedness of one workflow entry: name and
title are strings, species_specific is a boolean, and the connect_id and
artifacts keys must both be present, either null or of the right shape. -/
def wellFormedWorkflow (y : Yaml) : Bool :=
  match y with
  | .map es =>
      hasField es "name" yamlIsStr && hasField es "title" yamlIsStr &&
        hasField es "species_specific" yamlIsBool &&
        hasField es "connect_id" yamlIsOptStr &&
        hasField es "artifacts" yamlIsOptStrMap
  | _ => false

/-- Specification-side well-formedness of the whole parsed configuration:
a well-formed global_vars section and a workflows mapping all of whose
entries are well-formed. -/
def wellFormedNapistuConfig (kwargs : List (String × Yaml)) : Bool :=
  hasField kwargs "global_vars" wellFormedGlobalVars &&
    (match lookupKey kwargs "workflows" with
     | some (.map es) => es.all fun e => wellFormedWorkflow e.2
     | _ => false)

/-- Specification-side virtual environment activation: the arguments that
precede the publish command when venv_path is given, and nothing otherwise. -/
def venvActivationArgs : Option String → List String
  | none => []
  | some venv => ["source", venv ++ "/bin/activate", "&&"]

/-- Specification-side fixed part of the rsconnect publish command:
notebook title, server URL and credential. -/
def rsconnectBaseArgs (asset_type notebook_title url pat : String) : List String :=
  ["rsconnect", "deploy", asset_type, "--title", squote notebook_title,
   "--server", squote url, "--api-key", squote pat]

/-- Specification-side publish mode: new document when connect_id is null,
update of the identified app otherwise, followed by the notebook file. -/
def publishModeArgs (connect_id : Option String) (notebook_file : String) : List String :=
  match connect_id with
  | none => ["--new", notebook_file]
  | some cid => ["--app-id", cid, notebook_file]

/-- The part of the printed deploy command that precedes the credential. -/
def deployCmdBefore (venv_path : Option String) (asset_type notebook_title url : String) :
    String :=
  strJoin " " (venvActivationArgs venv_path ++
    ["rsconnect", "deploy", asset_type, "--title", squote notebook_title,
     "--server", squote url, "--api-key"]) ++ " " ++ "\x27"

/-- The part of the printed deploy command that follows the credential. -/
def deployCmdAfter (connect_id : Option String) (notebook_file : String) : String :=
  "\x27" ++ joinRest " " (publishModeArgs connect_id notebook_file)

/-- A concrete well-formed configuration file used as test input: two
workflows, the first species-specific with one artifact, the second neither
species-specific nor carrying artifacts. -/
def sampleKwargs : List (String × Yaml) :=
  [("global_vars", .map [("data_dir", .str "/tmp/d"), ("species", .str "Homo sapiens"),
      ("overwrite", .bool false)]),
   ("workflows", .map
     [("wf", .map [("name", .str "wf.ipynb"), ("title", .str "T"),
         ("species_specific", .bool true), ("connect_id", .null),
         ("artifacts", .map [("a", .str "x/y.csv")])]),
      ("other", .map [("name", .str "o.ipynb"), ("title", .str "O"),
         ("species_specific", .bool false), ("connect_id", .str "123"),
         ("artifacts", .null)])])]

/-- The sample configuration file as one YAML document. -/
def sampleConfigYaml : Yaml := .map sampleKwargs

/-- A one-file filesystem holding the sample configuration. -/
def sampleFiles : List (String × FileContent) := [("config.yaml", .yaml sampleConfigYaml)]

/-- The validated configuration corresponding to sampleConfigYaml. -/
def sampleConfigDict : ConfigDict :=
  { global_vars := { data_dir := "/tmp/d", species := "Homo sapiens", overwrite := false },
    workflows := [("wf", { name := "wf.ipynb", title := "T", species_specific := true,
                           connect_id := none, artifacts := some [("a", "x/y.csv")] }),
                  ("other", { name := "o.ipynb", title := "O", species_specific := false,
                              connect_id := some "123", artifacts := none })] }

/-- The workflow settings of the wf entry of sampleConfigDict. -/
def sampleWfSettings : WorkflowSettings :=
  { name := "wf.ipynb", title := "T", species_specific := true,
    connect_id := none, artifacts := some [("a", "x/y.csv")] }

/-- The NapistuConfig value constructed from sampleConfigYaml for the wf
workflow with no related workflows. -/
def sampleConfig : NapistuConfig :=
  { workflow := "wf", config_dict := sampleConfigDict, species := "Homo sapiens",
    overwrite := false, data_dir := "/tmp/d", species_data_dir := "/tmp/d/Homo_sapiens",
    artifacts := some [("a", "/tmp/d/Homo_sapiens/x/y.csv")], related := none }

/-- A concrete Connect server entry used as test input. -/
def sampleServer : ConnectServer :=
  { url := "https://connect.example.org", pat_secret_name := "CONNECT_PAT" }

theorem exceptIsOk_ok {ε α : Type} (a : α) : exceptIsOk (ε := ε) (Except.ok a) = true := rfl

theorem exceptIsOk_error {ε α : Type} (e : ε) :
    exceptIsOk (α := α) (Except.error e) = false := rfl

theorem exceptIsOk_collectErrors {α β : Type} (a : Except (List String) α)
    (b : Except (List String) β) :
    exceptIsOk (collectErrors a b) = (exceptIsOk a && exceptIsOk b) := by
  cases a <;> cases b <;> rfl

theorem exceptIsOk_exceptMap {α β : Type} (f : α → β) (e : Except (List String) α) :
    exceptIsOk (e.map f) = exceptIsOk e := by
  cases e <;> rfl

theorem exceptIsOk_requireStr (loc : String) (v : Option Yaml) :
    exceptIsOk (requireStr loc v) = match v with | none => false | some y => yamlIsStr y := by
  cases v with
  | none => rfl
  | some y => cases y <;> rfl

theorem exceptIsOk_requireBool (loc : String) (v : Option Yaml) :
    exceptIsOk (requireBool loc v) = match v with | none => false | some y => yamlIsBool y := by
  cases v with
  | none => rfl
  | some y => cases y <;> rfl

theorem exceptIsOk_requireOptStr (loc : String) (v : Option Yaml) :
    exceptIsOk (requireOptStr loc v) =
      match v with | none => false | some y => yamlIsOptStr y := by
  cases v with
  | none => rfl
  | some y => cases y <;> rfl

theorem exceptIsOk_strEntries (loc : String) (es : List (String × Yaml)) :
    exceptIsOk (strEntries loc es) = es.all fun e => yamlIsStr e.2 := by
  induction es with
  | nil => rfl
  | cons kv rest ih =>
      obtain ⟨k, v⟩ := kv
      cases v <;>
        simp [strEntries, exceptIsOk_exceptMap, exceptIsOk_collectErrors, ih, yamlIsStr,
          exceptIsOk_ok, exceptIsOk_error]

theorem exceptIsOk_requireOptStrMap (loc : String) (v : Option Yaml) :
    exceptIsOk (requireOptStrMap loc v) =
      match v with | none => false | some y => yamlIsOptStrMap y := by
  cases v with
  | none => rfl
  | some y =>
      cases y <;>
        simp [requireOptStrMap, exceptIsOk_exceptMap, exceptIsOk_strEntries, yamlIsOptStrMap,
          exceptIsOk_ok, exceptIsOk_error]

theorem exceptIsOk_workflowValidator (loc : String) (y : Yaml) :
    exceptIsOk (napistuConfigWorkflowValidator loc y) = wellFormedWorkflow y := by
  cases y with
  | map es =>
      simp only [napistuConfigWorkflowValidator, wellFormedWorkflow, hasField,
        exceptIsOk_exceptMap, exceptIsOk_collectErrors, exceptIsOk_requireStr,
        exceptIsOk_requireBool, exceptIsOk_requireOptStr, exceptIsOk_requireOptStrMap]
      cases lookupKey es "name" <;> cases lookupKey es "title" <;>
        cases lookupKey es "species_specific" <;> cases lookupKey es "connect_id" <;>
        cases lookupKey es "artifacts" <;> simp [Bool.and_assoc]
  | str s => rfl
  | bool b => rfl
  | null => rfl

theorem exceptIsOk_globalValidator (loc : String) (y : Yaml) :
    exceptIsOk (napistuConfigGlobalValidator loc y) = wellFormedGlobalVars y := by
  cases y with
  | map es =>
      simp only [napistuConfigGlobalValidator, wellFormedGlobalVars, hasField,
        exceptIsOk_exceptMap, exceptIsOk_collectErrors, exceptIsOk_requireStr,
        exceptIsOk_requireBool]
      cases lookupKey es "data_dir" <;> cases lookupKey es "species" <;>
        cases lookupKey es "overwrite" <;> simp [Bool.and_assoc]
  | str s => rfl
  | bool b => rfl
  | null => rfl

theorem exceptIsOk_workflowEntries (loc : String) (es : List (String × Yaml)) :
    exceptIsOk (workflowEntries loc es) = es.all fun e => wellFormedWorkflow e.2 := by
  induction es with
  | nil => rfl
  | cons kv rest ih =>
      obtain ⟨k, v⟩ := kv
      simp [workflowEntries, exceptIsOk_exceptMap, exceptIsOk_collectErrors,
        exceptIsOk_workflowValidator, ih]

example : joinPath "/tmp/d" "Homo_sapiens" = "/tmp/d/Homo_sapiens" := by decide
example : joinPath "/tmp/d" "/abs" = "/abs" := by decide
example : dirname "/tmp/d/x/y.csv" = "/tmp/d/x" := by decide
example : dirname "file.csv" = "" := by decide
example : dirname "/a" = "/" := by decide
example : spacesToUnderscores "Homo sapiens" = "Homo_sapiens" := by decide
example : strJoin ", " ["a", "b", "c"] = "a, b, c" := by decide
example : expanduser "/home/u" "~/x" = "/home/u/x" := by decide
example : ancestorDirs 10 "/tmp/d/x" = ["/tmp/d/x", "/tmp/d", "/tmp", "/"] := by decide

theorem lookupKey_map {α β : Type} (f : α → β) (l : List (String × α)) (k : String) :
    lookupKey (l.map fun kv => (kv.1, f kv.2)) k = (lookupKey l k).map f := by
  induction l with
  | nil => rfl
  | cons kv rest ih =>
      by_cases h : kv.1 = k <;> simp [lookupKey, h, ih]

theorem joinRest_append (sep : String) (l1 l2 : List String) :
    joinRest sep (l1 ++ l2) = joinRest sep l1 ++ joinRest sep l2 := by
  induction l1 with
  | nil =>
      apply String.ext
      simp [joinRest, String.data_append]
  | cons a as ih =>
      simp [joinRest, ih, String.append_assoc]

theorem string_append_cancel {p s x y : String} (h : p ++ x ++ s = p ++ y ++ s) : x = y := by
  have hd := congrArg String.data h
  simp only [String.data_append, List.append_assoc] at hd
  exact String.ext (List.append_cancel_right (List.append_cancel_left hd))

theorem mem_joinRest_decompose (sep : String) (names : List String) (n : String)
    (h : n ∈ names) : ∃ l r, joinRest sep names = l ++ n ++ r := by
  induction names with
  | nil => cases h
  | cons a as ih =>
      rcases List.mem_cons.mp h with h | h
      · exact ⟨sep, joinRest sep as, by simp [joinRest, h, String.append_assoc]⟩
      · obtain ⟨l, r, hl⟩ := ih h
        exact ⟨sep ++ a ++ l, r, by simp [joinRest, hl, String.append_assoc]⟩

theorem mem_strJoin_decompose (sep : String) (names : List String) (n : String)
    (h : n ∈ names) : ∃ l r, strJoin sep names = l ++ n ++ r := by
  cases names with
  | nil => cases h
  | cons a as =>
      rcases List.mem_cons.mp h with h | h
      · refine ⟨"", joinRest sep as, ?_⟩
        apply String.ext
        simp [strJoin, h, String.data_append]
      · obtain ⟨l, r, hl⟩ := mem_joinRest_decompose sep as n h
        exact ⟨a ++ l, r, by simp [strJoin, hl, String.append_assoc]⟩

/-- C2 (amended): schema validation succeeds exactly when every required
key is present with a value of the right type, where, following pydantic
v2 required-but-nullable semantics for fields annotated Optional without a
default, the connect_id and artifacts keys of every workflow entry are
required (their values may be null); in particular a workflow entry that
omits connect_id or artifacts fails validation with ValidationError, so
constructing NapistuConfig from such a config fails, refuting the original
claim that it succeeds. -/
theorem validator_required_keys (kwargs : List (String × Yaml)) :
    exceptIsOk (napistuConfigValidator kwargs) = wellFormedNapistuConfig kwargs := by
  simp only [napistuConfigValidator, wellFormedNapistuConfig, hasField,
    exceptIsOk_exceptMap, exceptIsOk_collectErrors]
  cases hg : lookupKey kwargs "global_vars" with
  | none => simp [exceptIsOk_error]
  | some g =>
      cases hw : lookupKey kwargs "workflows" with
      | none => simp [exceptIsOk_globalValidator, exceptIsOk_error]
      | some w =>
          cases w <;>
            simp [exceptIsOk_globalValidator, exceptIsOk_workflowEntries, exceptIsOk_error]

theorem foldl_createArtifactDir_noop (arts : List (String × String)) (dirs : List String)
    (h : ∀ kv ∈ arts, dirname kv.2 ∈ dirs) :
    arts.foldl (fun s (kv : String × String) => createArtifactDir s kv.2) (dirs, []) =
      (dirs, []) := by
  induction arts with
  | nil => rfl
  | cons kv rest ih =>
      have hstep : createArtifactDir (dirs, []) kv.2 = (dirs, []) := by
        simp [createArtifactDir, h kv (List.mem_cons_self kv rest)]
      simp only [List.foldl_cons, hstep]
      exact ih fun x hx => h x (List.mem_cons_of_mem kv hx)

theorem relatedArtifactsList_ok (config_dict : ConfigDict) (data_dir species_data_dir : String)
    (names : List String) (r : List (String × Option (List (String × String))))
    (h : relatedArtifactsList config_dict data_dir species_data_dir names = .ok r) :
    r.map Prod.fst = names ∧
      ∀ x a, (x, a) ∈ r →
        formatWorkflowArtifacts config_dict data_dir species_data_dir x = .ok a := by
  induction names generalizing r with
  | nil =>
      simp only [relatedArtifactsList] at h
      cases h
      simp
  | cons x xs ih =>
      simp only [relatedArtifactsList] at h
      cases hf : formatWorkflowArtifacts config_dict data_dir species_data_dir x with
      | error e => rw [hf] at h; cases h
      | ok a =>
          rw [hf] at h
          cases hr : relatedArtifactsList config_dict data_dir species_data_dir xs with
          | error e => rw [hr] at h; cases h
          | ok rest =>
              rw [hr] at h
              cases h
              obtain ⟨h1, h2⟩ := ih rest hr
              refine ⟨by simp [h1], ?_⟩
              intro y b hyb
              rcases List.mem_cons.mp hyb with h | h
              · cases h; exact hf
              · exact h2 y b h

theorem deployNotebookConnect_ok (env : List (String × String))
    (notebook_file notebook_title server_name : String)
    (settings : List (String × ConnectServer)) (asset_type : String)
    (connect_id venv_path : Option String) (srv : ConnectServer) (pat : String)
    (hs : lookupKey settings server_name = some srv)
    (he : lookupKey env srv.pat_secret_name = some pat) :
    deployNotebookConnect env notebook_file notebook_title server_name settings
        asset_type connect_id venv_path =
      .ok { arglist := venvActivationArgs venv_path ++
              rsconnectBaseArgs asset_type notebook_title srv.url pat ++
              publishModeArgs connect_id notebook_file,
            printedLine := "Running command: " ++
              strJoin " " (venvActivationArgs venv_path ++
                rsconnectBaseArgs asset_type notebook_title srv.url pat ++
                publishModeArgs connect_id notebook_file),
            shellCommand :=
              strJoin " " (venvActivationArgs venv_path ++
                rsconnectBaseArgs asset_type notebook_title srv.url pat ++
                publishModeArgs connect_id notebook_file) } := by
  cases connect_id <;> cases venv_path <;>
    simp [deployNotebookConnect, readConnectSettings, readEnvironmentalVariable, hs, he,
      venvActivationArgs, rsconnectBaseArgs, publishModeArgs]

theorem deployCmd_decompose (venv_path : Option String)
    (asset_type notebook_title url pat : String) (connect_id : Option String)
    (notebook_file : String) :
    strJoin " " (venvActivationArgs venv_path ++
        rsconnectBaseArgs asset_type notebook_title url pat ++
        publishModeArgs connect_id notebook_file) =
      deployCmdBefore venv_path asset_type notebook_title url ++ pat ++
        deployCmdAfter connect_id notebook_file := by
  cases venv_path <;>
    simp only [venvActivationArgs, rsconnectBaseArgs, deployCmdBefore, deployCmdAfter,
      squote, strJoin, joinRest, List.cons_append, List.nil_append, List.append_assoc,
      String.append_assoc, String.append_empty, String.empty_append]

theorem napistuConfigInit_ok_inv (home : String) (files : List (String × FileContent))
    (dirs : List String) (config_path workflow : String) (rel : Option (List String))
    (cfg : NapistuConfig) (dirs1 created1 : List String)
    (h : napistuConfigInit home files dirs config_path workflow rel =
      .ok (cfg, dirs1, created1)) :
    ∃ kwargs config_validated,
      readConfig files config_path = .ok (.map kwargs) ∧
      napistuConfigValidator kwargs = .ok config_validated ∧
      cfg.workflow = workflow ∧
      cfg.config_dict = config_validated ∧
      cfg.species = config_validated.global_vars.species ∧
      cfg.overwrite = config_validated.global_vars.overwrite ∧
      cfg.data_dir = expanduser home config_validated.global_vars.data_dir ∧
      cfg.species_data_dir = joinPath cfg.data_dir (spacesToUnderscores cfg.species) ∧
      formatWorkflowArtifacts config_validated cfg.data_dir cfg.species_data_dir workflow =
        .ok cfg.artifacts ∧
      (dirs1, created1) =
        (match cfg.artifacts with
         | none => (dirs, [])
         | some arts =>
             arts.foldl (fun s (kv : String × String) => createArtifactDir s kv.2) (dirs, [])) ∧
      (rel = none → cfg.related = none) ∧
      (∀ names, rel = some names →
        ∃ r, relatedArtifactsList config_validated cfg.data_dir cfg.species_data_dir names =
            .ok r ∧ cfg.related = some r) := by
  unfold napistuConfigInit at h
  cases hrc : readConfig files config_path with
  | error e => rw [hrc] at h; simp at h
  | ok raw =>
    rw [hrc] at h
    cases raw with
    | str s => simp at h
    | bool b => simp at h
    | null => simp at h
    | map kwargs =>
      cases hv : napistuConfigValidator kwargs with
      | error errs => simp only [hv] at h; simp at h
      | ok cv =>
        simp only [hv] at h
        cases hf : formatWorkflowArtifacts cv (expanduser home cv.global_vars.data_dir)
            (joinPath (expanduser home cv.global_vars.data_dir)
              (spacesToUnderscores cv.global_vars.species)) workflow with
        | error e => simp only [hf] at h; simp at h
        | ok artifacts =>
          simp only [hf] at h
          cases rel with
          | none =>
            simp only [Except.ok.injEq, Prod.mk.injEq] at h
            obtain ⟨hcfg, hd, hc⟩ := h
            subst hcfg
            refine ⟨kwargs, cv, rfl, hv, rfl, rfl, rfl, rfl, rfl, rfl, hf, ?_, ?_, ?_⟩
            · cases artifacts with
              | none => simp_all
              | some arts => rw [← hd, ← hc]
            · intro hnone
              rfl
            · intro names hn
              cases hn
          | some names =>
            cases hr : relatedArtifactsList cv (expanduser home cv.global_vars.data_dir)
                (joinPath (expanduser home cv.global_vars.data_dir)
                  (spacesToUnderscores cv.global_vars.species)) names with
            | error e => simp only [hr] at h; simp at h
            | ok r =>
              simp only [hr] at h
              simp only [Except.ok.injEq, Prod.mk.injEq] at h
              obtain ⟨hcfg, hd, hc⟩ := h
              subst hcfg
              refine ⟨kwargs, cv, rfl, hv, rfl, rfl, rfl, rfl, rfl, rfl, hf, ?_, ?_, ?_⟩
              · cases artifacts with
                | none => simp_all
                | some arts => rw [← hd, ← hc]
              · intro hnone
                cases hnone
              · intro names2 hn
                cases hn
                exact ⟨r, hr, rfl⟩

/-- C1 (amended): constructing NapistuConfig fails with NotFoundError when
no file exists at config_path; when the file exists but its contents are
malformed YAML, the YAMLError is caught and logged and the empty dict is
substituted for the parsed config, so construction fails with the
ValidationError reporting both top-level fields missing, not with
ParseError. -/
theorem read_config_error_behavior (home : String) (files : List (String × FileContent))
    (dirs : List String) (config_path workflow : String) (rel : Option (List String)) :
    (lookupKey files config_path = none →
      napistuConfigInit home files dirs config_path workflow rel =
        .error (.notFoundError config_path)) ∧
    (lookupKey files config_path = some .malformed →
      napistuConfigInit home files dirs config_path workflow rel =
        .error (.validationError
          ["global_vars: Field required", "workflows: Field required"])) := by
  constructor
  · intro h
    simp [napistuConfigInit, readConfig, h]
  · intro h
    simp [napistuConfigInit, readConfig, h, napistuConfigValidator, lookupKey, collectErrors,
      Except.map]

/-- Witness for read_config_error_behavior at concrete inputs: a missing
file and a malformed file. -/
theorem read_config_error_behavior_witness :
    (napistuConfigInit "/home/u" [] [] "config.yaml" "wf" none =
      .error (.notFoundError "config.yaml")) ∧
    (napistuConfigInit "/home/u" [("config.yaml", .malformed)] [] "config.yaml" "wf" none =
      .error (.validationError
        ["global_vars: Field required", "workflows: Field required"])) :=
  ⟨(read_config_error_behavior "/home/u" [] [] "config.yaml" "wf" none).1 rfl,
   (read_config_error_behavior "/home/u" [("config.yaml", .malformed)] []
      "config.yaml" "wf" none).2 rfl⟩

/-- C1 counterexample: at a concrete existing file whose contents are
malformed YAML, construction does not fail with ParseError as the claim
states (it fails with ValidationError instead, the parse failure having
been swallowed and replaced by the empty dict). -/
theorem malformed_yaml_not_parse_error :
    napistuConfigInit "/home/u" [("config.yaml", FileContent.malformed)] []
        "config.yaml" "wf" none ≠
      Except.error InitError.parseError := by decide

/-- C2 counterexample: a concrete config whose workflow entry omits the
connect_id and artifacts keys fails validation, so constructing
NapistuConfig from it fails with ValidationError where the claim asserts
success. -/
theorem omitted_optional_keys_fail_validation :
    napistuConfigInit "/home/u"
        [("config.yaml", .yaml (.map
          [("global_vars", .map [("data_dir", .str "/tmp/d"),
             ("species", .str "Homo sapiens"), ("overwrite", .bool false)]),
           ("workflows", .map [("wf", .map [("name", .str "wf.ipynb"),
             ("title", .str "T"), ("species_specific", .bool true)])])]))] []
        "config.yaml" "wf" none =
      .error (.validationError
        ["workflows.wf.connect_id: Field required",
         "workflows.wf.artifacts: Field required"]) := by decide

theorem lookupKey_of_mem_keys {α : Type} (l : List (String × α)) (n : String)
    (h : n ∈ l.map Prod.fst) : ∃ v, lookupKey l n = some v := by
  induction l with
  | nil => cases h
  | cons kv rest ih =>
      by_cases hk : kv.1 = n
      · exact ⟨kv.2, by simp [lookupKey, hk]⟩
      · rcases List.mem_cons.mp h with h1 | h1
        · exact absurd h1.symm hk
        · obtain ⟨v, hv⟩ := ih h1
          exact ⟨v, by simp [lookupKey, hk, hv]⟩

theorem formatWorkflowArtifacts_ok_of_mem (cd : ConfigDict) (dd sdd wf : String)
    (h : wf ∈ cd.workflows.map Prod.fst) :
    ∃ a, formatWorkflowArtifacts cd dd sdd wf = .ok a := by
  obtain ⟨wc, hwc⟩ := lookupKey_of_mem_keys cd.workflows wf h
  cases ha : wc.artifacts with
  | none => exact ⟨none, by simp [formatWorkflowArtifacts, hwc, ha]⟩
  | some arts =>
      exact ⟨some (arts.map fun kv =>
        (kv.1, joinPath (if wc.species_specific then sdd else dd) kv.2)),
        by simp [formatWorkflowArtifacts, hwc, ha]⟩

theorem relatedArtifactsList_ok_of_mem (cd : ConfigDict) (dd sdd : String)
    (names : List String) (h : ∀ n ∈ names, n ∈ cd.workflows.map Prod.fst) :
    ∃ r, relatedArtifactsList cd dd sdd names = .ok r := by
  induction names with
  | nil => exact ⟨[], rfl⟩
  | cons x xs ih =>
      obtain ⟨a, ha⟩ := formatWorkflowArtifacts_ok_of_mem cd dd sdd x
        (h x (List.mem_cons_self x xs))
      obtain ⟨r, hr⟩ := ih fun n hn => h n (List.mem_cons_of_mem x hn)
      exact ⟨(x, a) :: r, by simp [relatedArtifactsList, ha, hr]⟩

/-- C3: for every valid YAML config satisfying the schema (the file at
config_path holds a YAML mapping whose validation succeeds) in which the
requested workflow and every related workflow are among the configured
workflow names, construction succeeds, and the species_data_dir attribute
of the constructed object equals the data_dir attribute joined with the
species name in which every space is replaced by an underscore, where
data_dir is the configured value after user expansion; when the normalized
species is not absolute and data_dir is nonempty without a trailing slash,
the join is plain slash concatenation. -/
theorem species_data_dir_spec (home : String) (files : List (String × FileContent))
    (dirs : List String) (config_path workflow : String) (rel : Option (List String))
    (kwargs : List (String × Yaml)) (cv : ConfigDict)
    (hfile : lookupKey files config_path = some (.yaml (.map kwargs)))
    (hv : napistuConfigValidator kwargs = .ok cv)
    (hwf : workflow ∈ cv.workflows.map Prod.fst)
    (hrel : ∀ names, rel = some names → ∀ n ∈ names, n ∈ cv.workflows.map Prod.fst) :
    ∃ cfg dirs1 created1,
      napistuConfigInit home files dirs config_path workflow rel =
        .ok (cfg, dirs1, created1) ∧
      cfg.config_dict = cv ∧
      cfg.species = cv.global_vars.species ∧
      cfg.data_dir = expanduser home cv.global_vars.data_dir ∧
      cfg.species_data_dir = joinPath cfg.data_dir (spacesToUnderscores cfg.species) ∧
      (strStartsWith (spacesToUnderscores cfg.species) "/" = false →
        cfg.data_dir ≠ "" → strEndsWith cfg.data_dir "/" = false →
        cfg.species_data_dir = cfg.data_dir ++ "/" ++ spacesToUnderscores cfg.species) := by
  obtain ⟨artifacts, hfmt⟩ := formatWorkflowArtifacts_ok_of_mem cv
    (expanduser home cv.global_vars.data_dir)
    (joinPath (expanduser home cv.global_vars.data_dir)
      (spacesToUnderscores cv.global_vars.species)) workflow hwf
  cases rel with
  | none =>
      refine ⟨{ workflow := workflow, config_dict := cv,
                species := cv.global_vars.species,
                overwrite := cv.global_vars.overwrite,
                data_dir := expanduser home cv.global_vars.data_dir,
                species_data_dir := joinPath (expanduser home cv.global_vars.data_dir)
                  (spacesToUnderscores cv.global_vars.species),
                artifacts := artifacts, related := none },
        (match artifacts with
         | none => (dirs, ([] : List String))
         | some arts =>
             arts.foldl (fun s (kv : String × String) => createArtifactDir s kv.2)
               (dirs, [])).1,
        (match artifacts with
         | none => (dirs, ([] : List String))
         | some arts =>
             arts.foldl (fun s (kv : String × String) => createArtifactDir s kv.2)
               (dirs, [])).2,
        ?_, rfl, rfl, rfl, rfl, ?_⟩
      · simp only [napistuConfigInit, readConfig, hfile, hv, hfmt]
      · intro h1 h2 h3
        simp [joinPath, h1, h2, h3]
  | some names =>
      obtain ⟨r, hr⟩ := relatedArtifactsList_ok_of_mem cv
        (expanduser home cv.global_vars.data_dir)
        (joinPath (expanduser home cv.global_vars.data_dir)
          (spacesToUnderscores cv.global_vars.species)) names (hrel names rfl)
      refine ⟨{ workflow := workflow, config_dict := cv,
                species := cv.global_vars.species,
                overwrite := cv.global_vars.overwrite,
                data_dir := expanduser home cv.global_vars.data_dir,
                species_data_dir := joinPath (expanduser home cv.global_vars.data_dir)
                  (spacesToUnderscores cv.global_vars.species),
                artifacts := artifacts, related := some r },
        (match artifacts with
         | none => (dirs, ([] : List String))
         | some arts =>
             arts.foldl (fun s (kv : String × String) => createArtifactDir s kv.2)
               (dirs, [])).1,
        (match artifacts with
         | none => (dirs, ([] : List String))
         | some arts =>
             arts.foldl (fun s (kv : String × String) => createArtifactDir s kv.2)
               (dirs, [])).2,
        ?_, rfl, rfl, rfl, rfl, ?_⟩
      · simp only [napistuConfigInit, readConfig, hfile, hv, hfmt, hr]
      · intro h1 h2 h3
        simp [joinPath, h1, h2, h3]

/-- Witness for species_data_dir_spec at the sample configuration,
discharging the file, validation and membership hypotheses concretely. -/
theorem species_data_dir_spec_witness :
    ∃ cfg dirs1 created1,
      napistuConfigInit "/home/u" sampleFiles [] "config.yaml" "wf" none =
        .ok (cfg, dirs1, created1) ∧
      cfg.config_dict = sampleConfigDict ∧
      cfg.species = sampleConfigDict.global_vars.species ∧
      cfg.data_dir = expanduser "/home/u" sampleConfigDict.global_vars.data_dir ∧
      cfg.species_data_dir = joinPath cfg.data_dir (spacesToUnderscores cfg.species) ∧
      (strStartsWith (spacesToUnderscores cfg.species) "/" = false →
        cfg.data_dir ≠ "" → strEndsWith cfg.data_dir "/" = false →
        cfg.species_data_dir = cfg.data_dir ++ "/" ++ spacesToUnderscores cfg.species) :=
  species_data_dir_spec "/home/u" sampleFiles [] "config.yaml" "wf" none
    sampleKwargs sampleConfigDict rfl (by decide) (by decide)
    (fun names h => nomatch h)

/-- C4: for a workflow present in the config, artifact resolution returns
null when the artifacts field of the workflow is null, and otherwise the mapping
sending each artifact key to the base directory joined with the configured
relative path, where the base directory is species_data_dir for a
species-specific workflow and data_dir otherwise. -/
theorem format_workflow_artifacts_spec (cd : ConfigDict) (dd sdd wf : String)
    (wc : WorkflowSettings) (h : lookupKey cd.workflows wf = some wc) :
    (wc.artifacts = none → formatWorkflowArtifacts cd dd sdd wf = .ok none) ∧
    (∀ arts, wc.artifacts = some arts →
      formatWorkflowArtifacts cd dd sdd wf =
        .ok (some (arts.map fun kv =>
          (kv.1, joinPath (if wc.species_specific then sdd else dd) kv.2))) ∧
      ∀ k, lookupKey (arts.map fun kv =>
            (kv.1, joinPath (if wc.species_specific then sdd else dd) kv.2)) k =
          (lookupKey arts k).map
            fun v => joinPath (if wc.species_specific then sdd else dd) v) := by
  constructor
  · intro ha
    simp [formatWorkflowArtifacts, h, ha]
  · intro arts ha
    exact ⟨by simp [formatWorkflowArtifacts, h, ha],
      fun k => lookupKey_map (joinPath (if wc.species_specific then sdd else dd)) arts k⟩

/-- Witness for format_workflow_artifacts_spec at the sample configuration,
exercising the species-specific workflow carrying one artifact. -/
theorem format_workflow_artifacts_spec_witness :
    lookupKey sampleConfigDict.workflows "wf" = some sampleWfSettings ∧
    ((sampleWfSettings.artifacts = none →
        formatWorkflowArtifacts sampleConfigDict "/tmp/d" "/tmp/d/Homo_sapiens" "wf" =
          .ok none) ∧
      (∀ arts, sampleWfSettings.artifacts = some arts →
        formatWorkflowArtifacts sampleConfigDict "/tmp/d" "/tmp/d/Homo_sapiens" "wf" =
          .ok (some (arts.map fun kv =>
            (kv.1, joinPath
              (if sampleWfSettings.species_specific then "/tmp/d/Homo_sapiens" else "/tmp/d")
              kv.2))) ∧
        ∀ k, lookupKey (arts.map fun kv =>
              (kv.1, joinPath
                (if sampleWfSettings.species_specific then "/tmp/d/Homo_sapiens" else "/tmp/d")
                kv.2)) k =
            (lookupKey arts k).map fun v =>
              joinPath
                (if sampleWfSettings.species_specific then "/tmp/d/Homo_sapiens" else "/tmp/d")
                v)) :=
  ⟨rfl, format_workflow_artifacts_spec sampleConfigDict "/tmp/d" "/tmp/d/Homo_sapiens" "wf"
    sampleWfSettings rfl⟩

/-- C5: when the environment variable named by the pat_secret_name of the
selected server is unset, deploy_notebook_connect fails with
MissingCredentialError before building the command line, so no external
publish command is printed or invoked (the effects record exists only on
success). -/
theorem deploy_missing_credential (env : List (String × String))
    (notebook_file notebook_title server_name asset_type : String)
    (settings : List (String × ConnectServer)) (connect_id venv_path : Option String)
    (srv : ConnectServer)
    (hs : lookupKey settings server_name = some srv)
    (he : lookupKey env srv.pat_secret_name = none) :
    deployNotebookConnect env notebook_file notebook_title server_name settings
        asset_type connect_id venv_path =
      .error (.missingCredentialError srv.pat_secret_name) := by
  simp [deployNotebookConnect, readConnectSettings, readEnvironmentalVariable, hs, he]

/-- Witness for deploy_missing_credential with an empty environment. -/
theorem deploy_missing_credential_witness :
    lookupKey [("prod", sampleServer)] "prod" = some sampleServer ∧
    lookupKey ([] : List (String × String)) sampleServer.pat_secret_name = none ∧
    deployNotebookConnect [] "wf.ipynb" "T" "prod" [("prod", sampleServer)]
        "quarto" none none =
      .error (.missingCredentialError sampleServer.pat_secret_name) :=
  ⟨rfl, rfl,
   deploy_missing_credential [] "wf.ipynb" "T" "prod" "quarto" [("prod", sampleServer)]
     none none sampleServer rfl rfl⟩

/-- C6: resolving a workflow name absent from the workflow mapping of the config
(resolution of both the primary and every related workflow goes through
_format_workflow_artifacts) fails with UnknownWorkflowError carrying the
valid workflow names of the config, and the error message built by the
source renders every one of those names. -/
theorem unknown_workflow_error_spec (cd : ConfigDict) (dd sdd wf : String)
    (h : lookupKey cd.workflows wf = none) :
    formatWorkflowArtifacts cd dd sdd wf =
      .error (.unknownWorkflowError wf (cd.workflows.map Prod.fst)) ∧
    ∀ n ∈ cd.workflows.map Prod.fst, ∃ l r,
      unknownWorkflowMessage wf (cd.workflows.map Prod.fst) = l ++ n ++ r := by
  refine ⟨by simp [formatWorkflowArtifacts, h], ?_⟩
  intro n hn
  obtain ⟨l, r, hl⟩ := mem_strJoin_decompose ", " (cd.workflows.map Prod.fst) n hn
  refine ⟨"The provided workflow: " ++ wf ++
    " is not defined as a workflow in the config. " ++
    "The named workflows are: " ++ l, r, ?_⟩
  rw [unknownWorkflowMessage, hl]
  simp [String.append_assoc]

/-- Witness for unknown_workflow_error_spec: requesting the workflow nope
from the sample configuration. -/
theorem unknown_workflow_error_spec_witness :
    lookupKey sampleConfigDict.workflows "nope" = none ∧
    (formatWorkflowArtifacts sampleConfigDict "/tmp/d" "/tmp/d/Homo_sapiens" "nope" =
        .error (.unknownWorkflowError "nope" (sampleConfigDict.workflows.map Prod.fst)) ∧
      ∀ n ∈ sampleConfigDict.workflows.map Prod.fst, ∃ l r,
        unknownWorkflowMessage "nope" (sampleConfigDict.workflows.map Prod.fst) =
          l ++ n ++ r) :=
  ⟨rfl, unknown_workflow_error_spec sampleConfigDict "/tmp/d" "/tmp/d/Homo_sapiens"
    "nope" rfl⟩

/-- C7: giving related_workflow_names changes no directory effect of the
construction: the final directories and the created-directory log equal
those of the construction without related workflows (directories are
created only for the artifacts of the primary workflow), while the artifacts of
every related workflow are resolved and recorded under related. -/
theorem related_workflows_no_dir_creation (home : String)
    (files : List (String × FileContent)) (dirs : List String)
    (config_path workflow : String) (names : List String)
    (cfg0 cfg1 : NapistuConfig) (d0 c0 d1 c1 : List String)
    (h0 : napistuConfigInit home files dirs config_path workflow none = .ok (cfg0, d0, c0))
    (h1 : napistuConfigInit home files dirs config_path workflow (some names) =
      .ok (cfg1, d1, c1)) :
    d1 = d0 ∧ c1 = c0 ∧ cfg1.artifacts = cfg0.artifacts ∧
    ∃ r, cfg1.related = some r ∧ r.map Prod.fst = names ∧
      ∀ x a, (x, a) ∈ r →
        formatWorkflowArtifacts cfg1.config_dict cfg1.data_dir cfg1.species_data_dir x =
          .ok a := by
  obtain ⟨kw0, cv0, hrc0, hv0, hw0, hcd0, hsp0, hov0, hdd0, hsdd0, hfa0, hst0, hrn0, hrs0⟩ :=
    napistuConfigInit_ok_inv home files dirs config_path workflow none cfg0 d0 c0 h0
  obtain ⟨kw1, cv1, hrc1, hv1, hw1, hcd1, hsp1, hov1, hdd1, hsdd1, hfa1, hst1, hrn1, hrs1⟩ :=
    napistuConfigInit_ok_inv home files dirs config_path workflow (some names) cfg1 d1 c1 h1
  have hkw : kw0 = kw1 := by
    have hmap := Except.ok.inj (hrc0.symm.trans hrc1)
    injection hmap
  subst hkw
  have hcv : cv0 = cv1 := Except.ok.inj (hv0.symm.trans hv1)
  subst hcv
  have hdd : cfg0.data_dir = cfg1.data_dir := by rw [hdd0, hdd1]
  have hsp : cfg0.species = cfg1.species := by rw [hsp0, hsp1]
  have hsdd : cfg0.species_data_dir = cfg1.species_data_dir := by
    rw [hsdd0, hsdd1, hdd, hsp]
  have hart : cfg1.artifacts = cfg0.artifacts := by
    have hfa0' := hfa0
    rw [hdd, hsdd] at hfa0'
    exact Except.ok.inj (hfa1.symm.trans hfa0')
  have hst : (d1, c1) = (d0, c0) := by
    rw [hart] at hst1
    exact hst1.trans hst0.symm
  have hd := congrArg Prod.fst hst
  have hc := congrArg Prod.snd hst
  refine ⟨hd, hc, hart, ?_⟩
  obtain ⟨r, hr, hrel⟩ := hrs1 names rfl
  obtain ⟨hmap, hmem⟩ := relatedArtifactsList_ok cv0 cfg1.data_dir cfg1.species_data_dir
    names r hr
  refine ⟨r, hrel, hmap, ?_⟩
  intro x a hxa
  rw [hcd1]
  exact hmem x a hxa

/-- Witness for related_workflows_no_dir_creation: runs on the sample
configuration without and with the related workflow other. -/
theorem related_workflows_no_dir_creation_witness :
    napistuConfigInit "/home/u" sampleFiles [] "config.yaml" "wf" none =
      .ok (sampleConfig,
        ["/tmp/d/Homo_sapiens/x", "/tmp/d/Homo_sapiens", "/tmp/d", "/tmp", "/"],
        ["/tmp/d/Homo_sapiens/x"]) ∧
    napistuConfigInit "/home/u" sampleFiles [] "config.yaml" "wf" (some ["other"]) =
      .ok ({ sampleConfig with related := some [("other", none)] },
        ["/tmp/d/Homo_sapiens/x", "/tmp/d/Homo_sapiens", "/tmp/d", "/tmp", "/"],
        ["/tmp/d/Homo_sapiens/x"]) ∧
    (["/tmp/d/Homo_sapiens/x", "/tmp/d/Homo_sapiens", "/tmp/d", "/tmp", "/"] =
        ["/tmp/d/Homo_sapiens/x", "/tmp/d/Homo_sapiens", "/tmp/d", "/tmp", "/"] ∧
      ["/tmp/d/Homo_sapiens/x"] = ["/tmp/d/Homo_sapiens/x"] ∧
      ({ sampleConfig with related := some [("other", none)] } : NapistuConfig).artifacts =
        sampleConfig.artifacts ∧
      ∃ r, ({ sampleConfig with related := some [("other", none)] } : NapistuConfig).related =
          some r ∧ r.map Prod.fst = ["other"] ∧
        ∀ x a, (x, a) ∈ r →
          formatWorkflowArtifacts
              ({ sampleConfig with related := some [("other", none)] } : NapistuConfig).config_dict
              ({ sampleConfig with related := some [("other", none)] } : NapistuConfig).data_dir
              ({ sampleConfig with
                  related := some [("other", none)] } : NapistuConfig).species_data_dir x =
            .ok a) :=
  ⟨by decide, by decide,
   related_workflows_no_dir_creation "/home/u" sampleFiles [] "config.yaml" "wf" ["other"]
     sampleConfig { sampleConfig with related := some [("other", none)] }
     ["/tmp/d/Homo_sapiens/x", "/tmp/d/Homo_sapiens", "/tmp/d", "/tmp", "/"]
     ["/tmp/d/Homo_sapiens/x"]
     ["/tmp/d/Homo_sapiens/x", "/tmp/d/Homo_sapiens", "/tmp/d", "/tmp", "/"]
     ["/tmp/d/Homo_sapiens/x"] (by decide) (by decide)⟩

/-- C8: for a construction run under overwrite set to false whose artifact
parent directories already exist, no directory is created (the filesystem
is returned unchanged and the creation log is empty), and running the
construction a second time from the resulting state succeeds with the same
object and again leaves the directories unchanged. -/
theorem construction_idempotent_dirs (home : String) (files : List (String × FileContent))
    (dirs : List String) (config_path workflow : String) (rel : Option (List String))
    (cfg : NapistuConfig) (dirs1 created1 : List String)
    (hov : cfg.overwrite = false)
    (h : napistuConfigInit home files dirs config_path workflow rel =
      .ok (cfg, dirs1, created1))
    (hex : ∀ kv ∈ cfg.artifacts.getD [], dirname kv.2 ∈ dirs) :
    dirs1 = dirs ∧ created1 = [] ∧
      napistuConfigInit home files dirs1 config_path workflow rel = .ok (cfg, dirs, []) := by
  obtain ⟨kw, cv, hrc, hv, hw, hcd, hsp, hov2, hdd, hsdd, hfa, hst, hrn, hrs⟩ :=
    napistuConfigInit_ok_inv home files dirs config_path workflow rel cfg dirs1 created1 h
  have hdc : dirs1 = dirs ∧ created1 = [] := by
    cases ha : cfg.artifacts with
    | none =>
        rw [ha] at hst
        simp only [Prod.mk.injEq] at hst
        exact hst
    | some arts =>
        rw [ha] at hst
        have hnoop := foldl_createArtifactDir_noop arts dirs (by
          intro kv hkv
          apply hex
          rw [ha]
          simpa using hkv)
        simp only [hnoop] at hst
        simp only [Prod.mk.injEq] at hst
        exact hst
  obtain ⟨hd, hc⟩ := hdc
  subst hd
  subst hc
  exact ⟨rfl, rfl, h⟩

/-- Witness for construction_idempotent_dirs: the sample configuration with
the artifact parent directory already on disk. -/
theorem construction_idempotent_dirs_witness :
    sampleConfig.overwrite = false ∧
    napistuConfigInit "/home/u" sampleFiles ["/tmp/d/Homo_sapiens/x"] "config.yaml" "wf"
        none = .ok (sampleConfig, ["/tmp/d/Homo_sapiens/x"], []) ∧
    (∀ kv ∈ sampleConfig.artifacts.getD [],
      dirname kv.2 ∈ ["/tmp/d/Homo_sapiens/x"]) ∧
    (["/tmp/d/Homo_sapiens/x"] = ["/tmp/d/Homo_sapiens/x"] ∧
      ([] : List String) = [] ∧
      napistuConfigInit "/home/u" sampleFiles ["/tmp/d/Homo_sapiens/x"] "config.yaml" "wf"
          none = .ok (sampleConfig, ["/tmp/d/Homo_sapiens/x"], [])) :=
  ⟨by decide, by decide, by decide,
   construction_idempotent_dirs "/home/u" sampleFiles ["/tmp/d/Homo_sapiens/x"]
     "config.yaml" "wf" none sampleConfig ["/tmp/d/Homo_sapiens/x"] [] (by decide)
     (by decide) (by decide)⟩

/-- C9: for every deploy invocation that resolves its server and
credential and therefore reaches the publish step, the built command is the
optional virtual environment activation, the fixed rsconnect part with
title, server URL and credential, and then --new followed by the notebook
file when connect_id is null or --app-id, the connect_id and the notebook
file otherwise; when venv_path is given the command starts with the
activation of that environment. -/
theorem publish_command_structure (env : List (String × String))
    (notebook_file notebook_title server_name asset_type : String)
    (settings : List (String × ConnectServer)) (connect_id venv_path : Option String)
    (srv : ConnectServer) (pat : String)
    (hs : lookupKey settings server_name = some srv)
    (he : lookupKey env srv.pat_secret_name = some pat) :
    ∃ eff, deployNotebookConnect env notebook_file notebook_title server_name settings
        asset_type connect_id venv_path = .ok eff ∧
      eff.arglist = venvActivationArgs venv_path ++
        rsconnectBaseArgs asset_type notebook_title srv.url pat ++
        publishModeArgs connect_id notebook_file ∧
      (connect_id = none →
        eff.arglist = venvActivationArgs venv_path ++
          rsconnectBaseArgs asset_type notebook_title srv.url pat ++
          ["--new", notebook_file]) ∧
      (∀ cid, connect_id = some cid →
        eff.arglist = venvActivationArgs venv_path ++
          rsconnectBaseArgs asset_type notebook_title srv.url pat ++
          ["--app-id", cid, notebook_file]) ∧
      (∀ venv, venv_path = some venv →
        eff.arglist.take 3 = ["source", venv ++ "/bin/activate", "&&"]) := by
  refine ⟨_, deployNotebookConnect_ok env notebook_file notebook_title server_name settings
      asset_type connect_id venv_path srv pat hs he, rfl, ?_, ?_, ?_⟩
  · intro hc
    rw [hc]
    rfl
  · intro cid hc
    rw [hc]
    rfl
  · intro venv hv
    rw [hv]
    simp [venvActivationArgs]

/-- C10: every deploy invocation that reaches the publish step writes the
credential resolved from the environment verbatim into the line printed to
standard output, and two invocations differing only in the credential value
print different lines: the secret is not confined to the external call. -/
theorem credential_printed_to_stdout (env1 env2 : List (String × String))
    (notebook_file notebook_title server_name asset_type : String)
    (settings : List (String × ConnectServer)) (connect_id venv_path : Option String)
    (srv : ConnectServer) (pat1 pat2 : String)
    (hs : lookupKey settings server_name = some srv)
    (he1 : lookupKey env1 srv.pat_secret_name = some pat1)
    (he2 : lookupKey env2 srv.pat_secret_name = some pat2)
    (hne : pat1 ≠ pat2) :
    ∃ eff1 eff2,
      deployNotebookConnect env1 notebook_file notebook_title server_name settings
          asset_type connect_id venv_path = .ok eff1 ∧
      deployNotebookConnect env2 notebook_file notebook_title server_name settings
          asset_type connect_id venv_path = .ok eff2 ∧
      (∃ l r, eff1.printedLine = l ++ pat1 ++ r) ∧
      eff1.printedLine ≠ eff2.printedLine := by
  refine ⟨_, _,
    deployNotebookConnect_ok env1 notebook_file notebook_title server_name settings
      asset_type connect_id venv_path srv pat1 hs he1,
    deployNotebookConnect_ok env2 notebook_file notebook_title server_name settings
      asset_type connect_id venv_path srv pat2 hs he2, ?_, ?_⟩
  · refine ⟨"Running command: " ++
      deployCmdBefore venv_path asset_type notebook_title srv.url,
      deployCmdAfter connect_id notebook_file, ?_⟩
    show "Running command: " ++
        strJoin " " (venvActivationArgs venv_path ++
          rsconnectBaseArgs asset_type notebook_title srv.url pat1 ++
          publishModeArgs connect_id notebook_file) = _
    rw [deployCmd_decompose]
    simp only [String.append_assoc]
  · intro heq
    apply hne
    have heq2 : "Running command: " ++
        strJoin " " (venvActivationArgs venv_path ++
          rsconnectBaseArgs asset_type notebook_title srv.url pat1 ++
          publishModeArgs connect_id notebook_file) =
      "Running command: " ++
        strJoin " " (venvActivationArgs venv_path ++
          rsconnectBaseArgs asset_type notebook_title srv.url pat2 ++
          publishModeArgs connect_id notebook_file) := heq
    rw [deployCmd_decompose, deployCmd_decompose] at heq2
    have heq3 : ("Running command: " ++
          deployCmdBefore venv_path asset_type notebook_title srv.url) ++ pat1 ++
        deployCmdAfter connect_id notebook_file =
      ("Running command: " ++
          deployCmdBefore venv_path asset_type notebook_title srv.url) ++ pat2 ++
        deployCmdAfter connect_id notebook_file := by
      simp only [String.append_assoc]
      simpa only [String.append_assoc] using heq2
    exact string_append_cancel heq3



/-- Witness for publish_command_structure at a concrete invocation with a
virtual environment and a null connect_id. -/
theorem publish_command_structure_witness :
    ∃ eff, deployNotebookConnect [("CONNECT_PAT", "sec")] "wf.ipynb" "T" "prod"
        [("prod", sampleServer)] "quarto" none (some "/venv") = .ok eff ∧
      eff.arglist = venvActivationArgs (some "/venv") ++
        rsconnectBaseArgs "quarto" "T" sampleServer.url "sec" ++
        publishModeArgs none "wf.ipynb" ∧
      ((none : Option String) = none →
        eff.arglist = venvActivationArgs (some "/venv") ++
          rsconnectBaseArgs "quarto" "T" sampleServer.url "sec" ++
          ["--new", "wf.ipynb"]) ∧
      (∀ cid, (none : Option String) = some cid →
        eff.arglist = venvActivationArgs (some "/venv") ++
          rsconnectBaseArgs "quarto" "T" sampleServer.url "sec" ++
          ["--app-id", cid, "wf.ipynb"]) ∧
      (∀ venv, (some "/venv" : Option String) = some venv →
        eff.arglist.take 3 = ["source", venv ++ "/bin/activate", "&&"]) :=
  publish_command_structure [("CONNECT_PAT", "sec")] "wf.ipynb" "T" "prod" "quarto"
    [("prod", sampleServer)] none (some "/venv") sampleServer "sec" rfl rfl

/-- Witness for credential_printed_to_stdout: two environments that differ
only in the credential value. -/
theorem credential_printed_to_stdout_witness :
    ∃ eff1 eff2,
      deployNotebookConnect [("CONNECT_PAT", "secretA")] "wf.ipynb" "T" "prod"
          [("prod", sampleServer)] "quarto" none none = .ok eff1 ∧
      deployNotebookConnect [("CONNECT_PAT", "secretB")] "wf.ipynb" "T" "prod"
          [("prod", sampleServer)] "quarto" none none = .ok eff2 ∧
      (∃ l r, eff1.printedLine = l ++ "secretA" ++ r) ∧
      eff1.printedLine ≠ eff2.printedLine :=
  credential_printed_to_stdout [("CONNECT_PAT", "secretA")] [("CONNECT_PAT", "secretB")]
    "wf.ipynb" "T" "prod" "quarto" [("prod", sampleServer)] none none sampleServer
    "secretA" "secretB" rfl rfl rfl (by decide)

end Napistu
